import Mathlib

/-!
Verification of the webhook/TwiML compatibility layer.

Shallow embedding of the Python sources in `src/`:
* `webhook_helper.py` (signature validation, event normalization),
* `rest/api/v2010/account/call.py` and `rest/api/v2010/account/call/__init__.py`
  (status / answered-by mapping, phone formatting, unsupported operations),
* `rest/api/v2010/account/message.py` (stubbed message resource),
* `twiml/voice_response.py` (TwiML document builder).

Machine words are modelled as `Nat` reduced mod `2^w`; Python values as the
inductive `PyVal`; fallible Python code as `Except PyErr`.
-/

namespace TwilioSpec

/-! ## 32-bit word arithmetic on `Nat` (for HMAC-SHA1) -/

/-- `2^32`. -/
def M32 : Nat := 4294967296

/-- Addition mod `2^32`. -/
def add32 (a b : Nat) : Nat := (a + b) % M32

/-- Left rotation of a 32-bit word by `n` bits. -/
def rotl32 (n x : Nat) : Nat :=
  ((x <<< n) ||| (x >>> (32 - n))) % M32

/-- Bitwise complement of a 32-bit word. -/
def not32 (x : Nat) : Nat := x ^^^ (M32 - 1)

/-! ## SHA-1 over byte lists (bytes are `Nat < 256`)

Standard FIPS 180-1 SHA-1, the function computed by Python's
`hashlib.sha1(...).digest()` used in `WebhookHelper.validate_request`. -/

/-- Big-endian bytes (most significant first) of `x`, `n` bytes wide. -/
def beBytes : Nat → Nat → List Nat
  | 0, _ => []
  | n + 1, x => (x >>> (8 * n)) % 256 :: beBytes n x

/-- A big-endian 32-bit word from four bytes. -/
def word32OfBytes (b0 b1 b2 b3 : Nat) : Nat :=
  ((b0 % 256) <<< 24) ||| ((b1 % 256) <<< 16) ||| ((b2 % 256) <<< 8) ||| (b3 % 256)

/-- Split a byte list into big-endian 32-bit words (length assumed divisible by 4). -/
def wordsOfBytes : List Nat → List Nat
  | b0 :: b1 :: b2 :: b3 :: rest => word32OfBytes b0 b1 b2 b3 :: wordsOfBytes rest
  | _ => []

/-- SHA-1 message padding: append `0x80`, zero bytes, then the 64-bit
big-endian bit length, reaching a multiple of 64 bytes. -/
def sha1Pad (msg : List Nat) : List Nat :=
  let len := msg.length
  let zeros := (64 - (len + 9) % 64) % 64
  msg ++ [0x80] ++ List.replicate zeros 0 ++ beBytes 8 (len * 8)

/-- CPS identity on `Nat` (`forceNat n k = k n`): pattern-matching on `n`
makes kernel reduction normalize `n` to a literal before continuing, keeping
the reduction stack shallow during concrete SHA-1 evaluation. -/
def forceNat {α : Type} (n : Nat) (k : Nat → α) : α :=
  match n with
  | 0 => k 0
  | m + 1 => k (m + 1)

/-- `forceNat` really is the identity. -/
theorem forceNat_eq {α : Type} (n : Nat) (k : Nat → α) : forceNat n k = k n := by
  unfold forceNat
  match n with
  | 0 => rfl
  | m + 1 => rfl

/-- CPS identity on a five-word state, normalizing each component. -/
def force5 {α : Type} (st : Nat × Nat × Nat × Nat × Nat)
    (k : Nat × Nat × Nat × Nat × Nat → α) : α :=
  match st with
  | (a, b, c, d, e) =>
    forceNat a fun a => forceNat b fun b => forceNat c fun c =>
      forceNat d fun d => forceNat e fun e => k (a, b, c, d, e)

/-- `force5` really is the identity. -/
theorem force5_eq {α : Type} (st : Nat × Nat × Nat × Nat × Nat)
    (k : Nat × Nat × Nat × Nat × Nat → α) : force5 st k = k st := by
  obtain ⟨a, b, c, d, e⟩ := st
  simp [force5, forceNat_eq]

/-- Message-schedule extension: given the reversed schedule so far, prepend
the next word `n` times (`w[i] = rotl1 (w[i-3] ^ w[i-8] ^ w[i-14] ^ w[i-16])`). -/
def sha1Extend : Nat → List Nat → List Nat
  | 0, rev => rev
  | n + 1, rev =>
    forceNat (rotl32 1 (((rev.getD 2 0) ^^^ (rev.getD 7 0)) ^^^
                        ((rev.getD 13 0) ^^^ (rev.getD 15 0)))) fun next =>
      sha1Extend n (next :: rev)

/-- The 80-word message schedule from a 16-word chunk. -/
def sha1Schedule (chunk : List Nat) : List Nat :=
  (sha1Extend 64 chunk.reverse).reverse

/-- One SHA-1 round: state `(a,b,c,d,e)`, round number `i`, schedule word `w`. -/
def sha1Round (st : Nat × Nat × Nat × Nat × Nat) (i w : Nat) :
    Nat × Nat × Nat × Nat × Nat :=
  let (a, b, c, d, e) := st
  let f :=
    if i < 20 then (b &&& c) ||| (not32 b &&& d)
    else if i < 40 then (b ^^^ c) ^^^ d
    else if i < 60 then ((b &&& c) ||| (b &&& d)) ||| (c &&& d)
    else (b ^^^ c) ^^^ d
  let k :=
    if i < 20 then 0x5A827999
    else if i < 40 then 0x6ED9EBA1
    else if i < 60 then 0x8F1BBCDC
    else 0xCA62C1D6
  let temp := add32 (add32 (add32 (add32 (rotl32 5 a) f) e) k) w
  (temp, a, rotl32 30 b, c, d)

/-- Run the 80 rounds over the schedule, starting at round `i`. -/
def sha1Rounds (i : Nat) (st : Nat × Nat × Nat × Nat × Nat) :
    List Nat → Nat × Nat × Nat × Nat × Nat
  | [] => st
  | w :: ws => force5 (sha1Round st i w) fun st => sha1Rounds (i + 1) st ws

/-- Process one 64-byte chunk, updating the five hash words. -/
def sha1Chunk (h : Nat × Nat × Nat × Nat × Nat) (chunk : List Nat) :
    Nat × Nat × Nat × Nat × Nat :=
  let (h0, h1, h2, h3, h4) := h
  let (a, b, c, d, e) := sha1Rounds 0 (h0, h1, h2, h3, h4) (sha1Schedule (wordsOfBytes chunk))
  force5 (add32 h0 a, add32 h1 b, add32 h2 c, add32 h3 d, add32 h4 e) id

/-- Fold the compression function over `n` leading 64-byte chunks. -/
def sha1ChunksGo : Nat → (Nat × Nat × Nat × Nat × Nat) → List Nat →
    Nat × Nat × Nat × Nat × Nat
  | 0, h, _ => h
  | n + 1, h, bytes => sha1ChunksGo n (sha1Chunk h (bytes.take 64)) (bytes.drop 64)

/-- Fold the compression function over all 64-byte chunks of a padded
message (whose length is a multiple of 64). -/
def sha1Chunks (h : Nat × Nat × Nat × Nat × Nat) (bytes : List Nat) :
    Nat × Nat × Nat × Nat × Nat :=
  sha1ChunksGo (bytes.length / 64) h bytes

/-- SHA-1 digest (20 bytes) of a byte list. -/
def sha1 (msg : List Nat) : List Nat :=
  let (h0, h1, h2, h3, h4) :=
    sha1Chunks (0x67452301, 0xEFCDAB89, 0x98BADCFE, 0x10325476, 0xC3D2E1F0) (sha1Pad msg)
  beBytes 4 h0 ++ beBytes 4 h1 ++ beBytes 4 h2 ++ beBytes 4 h3 ++ beBytes 4 h4

/-! ## HMAC-SHA1 and base64 -/

/-- HMAC-SHA1 (RFC 2104) over byte lists: Python's
`hmac.new(key, msg, hashlib.sha1).digest()`. -/
def hmacSha1 (key msg : List Nat) : List Nat :=
  let key := if 64 < key.length then sha1 key else key
  let key := key ++ List.replicate (64 - key.length) 0
  let ipad := key.map (· ^^^ 0x36)
  let opad := key.map (· ^^^ 0x5C)
  sha1 (opad ++ sha1 (ipad ++ msg))

/-- The standard base64 alphabet. -/
def base64Alphabet : List Char :=
  "ABCDEFGHIJKLMNOPQRSTUVWXYZabcdefghijklmnopqrstuvwxyz0123456789+/".data

/-- Character for a 6-bit group. -/
def base64Char (n : Nat) : Char := base64Alphabet.getD (n % 64) 'A'

/-- Base64 encoding of a byte list (with `=` padding), as produced by
Python's `base64.b64encode(...).decode('utf-8')`. -/
def base64Encode : List Nat → List Char
  | b0 :: b1 :: b2 :: rest =>
    let n := ((b0 % 256) <<< 16) ||| ((b1 % 256) <<< 8) ||| (b2 % 256)
    base64Char (n >>> 18) :: base64Char ((n >>> 12) % 64) ::
      base64Char ((n >>> 6) % 64) :: base64Char (n % 64) :: base64Encode rest
  | [b0, b1] =>
    let n := ((b0 % 256) <<< 16) ||| ((b1 % 256) <<< 8)
    [base64Char (n >>> 18), base64Char ((n >>> 12) % 64), base64Char ((n >>> 6) % 64), '=']
  | [b0] =>
    let n := (b0 % 256) <<< 16
    [base64Char (n >>> 18), base64Char ((n >>> 12) % 64), '=', '=']
  | [] => []

/-! ## UTF-8 encoding (Python's `str.encode('utf-8')`) -/

/-- UTF-8 bytes of one code point. -/
def utf8Char (c : Char) : List Nat :=
  let n := c.toNat
  if n < 0x80 then [n]
  else if n < 0x800 then [0xC0 ||| (n >>> 6), 0x80 ||| (n &&& 0x3F)]
  else if n < 0x10000 then
    [0xE0 ||| (n >>> 12), 0x80 ||| ((n >>> 6) &&& 0x3F), 0x80 ||| (n &&& 0x3F)]
  else
    [0xF0 ||| (n >>> 18), 0x80 ||| ((n >>> 12) &&& 0x3F),
     0x80 ||| ((n >>> 6) &&& 0x3F), 0x80 ||| (n &&& 0x3F)]

/-- UTF-8 encoding of a string as a byte list. -/
def utf8Encode (s : String) : List Nat :=
  s.data.flatMap utf8Char

/-! ## `WebhookHelper.validate_request` (webhook_helper.py, lines 58-91) -/

/-- Strict lexicographic order on character lists by code point — how
Python compares strings. -/
def listLex : List Char → List Char → Bool
  | [], [] => false
  | [], _ :: _ => true
  | _ :: _, [] => false
  | a :: as, b :: bs =>
    if a.toNat < b.toNat then true
    else if b.toNat < a.toNat then false
    else listLex as bs

/-- Python `a < b` on strings. -/
def strLt (a b : String) : Bool := listLex a.data b.data

/-- The order Python's `sorted(params.items())` uses: lexicographic on the
`(key, value)` tuple (code-point string comparison). -/
def pairLe (a b : String × String) : Bool :=
  if strLt a.1 b.1 then true
  else if strLt b.1 a.1 then false
  else if strLt a.2 b.2 then true
  else if strLt b.2 a.2 then false
  else true

/-- Insert `a` into the sorted list, after any entries `≤`-below or tied
with it (so the overall sort is stable, like Python's). -/
def sinsert (a : String × String) : List (String × String) → List (String × String)
  | [] => [a]
  | b :: t => if pairLe b a then b :: sinsert a t else a :: b :: t

/-- `sorted(params.items())`: a stable sort by `pairLe` (insertion sort;
Python's `sorted` is some stable sort by the same order, with the same
result). -/
def sortedParams (params : List (String × String)) : List (String × String) :=
  params.foldl (fun acc x => sinsert x acc) []

/-- The signed string: the URL followed by each `key` immediately followed by
its `value`, pairs taken in sorted order (`validation_string += f"{key}{value}"`). -/
def validationString (url : String) (params : List (String × String)) : String :=
  (sortedParams params).foldl (fun acc kv => acc ++ (kv.1 ++ kv.2)) url

/-- The expected signature: base64 of HMAC-SHA1 keyed by the auth token over
the UTF-8 bytes of the validation string, decoded back to a string. -/
def expectedSignature (authToken url : String) (params : List (String × String)) : String :=
  String.mk (base64Encode (hmacSha1 (utf8Encode authToken) (utf8Encode (validationString url params))))

/-- `WebhookHelper.validate_request`.  `hmac.compare_digest` is modelled by
string equality: on ASCII strings (the expected signature is always base64
alphabet plus `=`) its value is exactly equality; its constant-time execution
is a timing property outside a functional embedding. -/
def validate_request (authToken url : String) (params : List (String × String))
    (signature : String) : Bool :=
  expectedSignature authToken url params == signature

/-! ## Python values

`PyVal` covers the JSON-object payloads the webhook helper receives:
`None`, strings, integers, booleans and nested string-keyed objects.
Fallible Python code is embedded in `Except PyErr`. -/

/-- A Python runtime error, by kind. -/
inductive PyErr where
  /-- `AttributeError` from calling the named method/attribute on a value
  that does not have it (e.g. `int.startswith`). -/
  | attributeError (attr : String)
  /-- `NameError` from referencing an unbound global (e.g. a missing import). -/
  | nameError (name : String)
deriving Repr, DecidableEq

/-- A Python value as appearing in webhook payload dicts. -/
inductive PyVal where
  | none
  | str (s : String)
  | int (n : Int)
  | bool (b : Bool)
  | dict (entries : List (String × PyVal))
deriving Inhabited

mutual

/-- Structural equality of Python values (Python `==` on these types). -/
def PyVal.beq : PyVal → PyVal → Bool
  | .none, .none => true
  | .str a, .str b => a == b
  | .int a, .int b => a == b
  | .bool a, .bool b => a == b
  | .dict a, .dict b => PyVal.beqEntries a b
  | _, _ => false

/-- Structural equality of dict entry lists. -/
def PyVal.beqEntries : List (String × PyVal) → List (String × PyVal) → Bool
  | [], [] => true
  | (k, v) :: t, (k', v') :: t' => k == k' && PyVal.beq v v' && PyVal.beqEntries t t'
  | _, _ => false

end

instance : BEq PyVal := ⟨PyVal.beq⟩

/-- Python truthiness. -/
def pyTruthy : PyVal → Bool
  | .none => false
  | .str s => !s.data.isEmpty
  | .int n => n != 0
  | .bool b => b
  | .dict l => !l.isEmpty

/-- `a or b`. -/
def pyOr (a b : PyVal) : PyVal := if pyTruthy a then a else b

mutual

/-- Python `repr` (used by `str` on dicts); quote-escaping corners aside. -/
def pyRepr : PyVal → String
  | .none => "None"
  | .str s => "'" ++ s ++ "'"
  | .int n => toString n
  | .bool b => if b then "True" else "False"
  | .dict l => "\x7b" ++ pyReprEntries l ++ "\x7d"

/-- Entries of a dict `repr`, comma-separated. -/
def pyReprEntries : List (String × PyVal) → String
  | [] => ""
  | [kv] => "'" ++ kv.1 ++ "': " ++ pyRepr kv.2
  | kv :: rest => "'" ++ kv.1 ++ "': " ++ pyRepr kv.2 ++ ", " ++ pyReprEntries rest

end

/-- Python `str()`. -/
def pyStr : PyVal → String
  | .str s => s
  | v => pyRepr v

/-- First value bound to `k` in a dict's entry list (Python dicts have
unique keys; entry order is insertion order). -/
def lookupVal : List (String × PyVal) → String → Option PyVal
  | [], _ => Option.none
  | (k', v) :: t, k => if k' = k then some v else lookupVal t k

/-- `d.get(k, dflt)` on a dict. -/
def dgetD (d : List (String × PyVal)) (k : String) (dflt : PyVal) : PyVal :=
  (lookupVal d k).getD dflt

/-- `d.get(k)` on a dict. -/
def dget (d : List (String × PyVal)) (k : String) : PyVal :=
  dgetD d k .none

/-- `v.get(k, dflt)` where `v` may not be a dict (then `AttributeError`). -/
def pyGetD (v : PyVal) (k : String) (dflt : PyVal) : Except PyErr PyVal :=
  match v with
  | .dict d => .ok (dgetD d k dflt)
  | _ => .error (.attributeError "get")

/-- Dict assignment `d[k] = v`: replaces in place if the key exists,
appends otherwise. -/
def dset : List (String × PyVal) → String → PyVal → List (String × PyVal)
  | [], k, v => [(k, v)]
  | (k', v') :: t, k, v => if k' = k then (k, v) :: t else (k', v') :: dset t k v

/-- `d.update(kvs)`. -/
def dupdate (d : List (String × PyVal)) (kvs : List (String × PyVal)) :
    List (String × PyVal) :=
  kvs.foldl (fun acc kv => dset acc kv.1 kv.2) d

/-- ASCII lowering, modelling `str.lower` (exact on ASCII data). -/
def asciiLower (s : String) : String := String.mk (s.data.map Char.toLower)

/-- ASCII uppering, modelling `str.upper` (exact on ASCII data). -/
def asciiUpper (s : String) : String := String.mk (s.data.map Char.toUpper)

/-- `v.lower()`: `AttributeError` unless `v` is a string. -/
def pyLowerM (v : PyVal) : Except PyErr String :=
  match v with
  | .str s => .ok (asciiLower s)
  | _ => .error (.attributeError "lower")

/-- `v.upper()`: `AttributeError` unless `v` is a string. -/
def pyUpperM (v : PyVal) : Except PyErr String :=
  match v with
  | .str s => .ok (asciiUpper s)
  | _ => .error (.attributeError "upper")

/-- Python `needle in hay` on strings. -/
def strContains (hay needle : String) : Bool :=
  decide (needle.data <:+: hay.data)

/-- Lookup in a literal string-to-string table. -/
def lookupStr : List (String × String) → String → Option String
  | [], _ => Option.none
  | (k', v) :: t, k => if k' = k then some v else lookupStr t k

/-! ## webhook_helper.py: field extraction helpers -/

/-- `extract_call_sid` (lines 187-207).  The generated fallback SID
(`f"CA{timestamp}{hash_part}".ljust(34,'x')[:34]`, built from wall-clock time
and `hash`) is impure; it is threaded in as the `genSid` parameter. -/
def extract_call_sid (genSid : String) (data : List (String × PyVal)) :
    Except PyErr String :=
  let call_id := pyOr (dget data "callId") (pyOr (dget data "CallSid")
      (pyOr (dget data "call_sid") (pyOr (dget data "sid") (dgetD data "id" (.str "")))))
  if pyTruthy call_id then
    match call_id with
    | .str s =>
      if ¬ "CA".data.isPrefixOf s.data then
        if 10 ≤ s.length then .ok ("CA" ++ s)
        else .ok ("CA" ++ s ++ String.mk (List.replicate (32 - s.length) 'x'))
      else .ok s
    | _ => .error (.attributeError "startswith")
  else .ok genSid

/-- `extract_from_number` (lines 210-214). -/
def extract_from_number (data : List (String × PyVal)) : PyVal :=
  pyOr (dget data "from") (pyOr (dget data "From") (pyOr (dget data "callerId")
    (pyOr (dget data "caller_id") (pyOr (dget data "caller")
      (pyOr (dget data "source") (.str ""))))))

/-- `extract_to_number` (lines 217-221). -/
def extract_to_number (data : List (String × PyVal)) : PyVal :=
  pyOr (dget data "to") (pyOr (dget data "To") (pyOr (dget data "number")
    (pyOr (dget data "called") (pyOr (dget data "destination")
      (pyOr (dget data "target") (.str ""))))))

/-- The event-based status table of `map_call_status` (lines 233-246). -/
def event_status_map : List (String × String) :=
  [("call.initiated", "queued"), ("call.queued", "queued"), ("call.ringing", "ringing"),
   ("call.answered", "in-progress"), ("call.active", "in-progress"),
   ("call.completed", "completed"), ("call.ended", "completed"), ("call.failed", "failed"),
   ("call.busy", "busy"), ("call.no-answer", "no-answer"), ("call.cancelled", "canceled"),
   ("call.canceled", "canceled")]

/-- The direct status table of `map_call_status` (lines 251-267). -/
def status_map : List (String × String) :=
  [("queued", "queued"), ("ringing", "ringing"), ("answered", "in-progress"),
   ("in-progress", "in-progress"), ("active", "in-progress"), ("completed", "completed"),
   ("ended", "completed"), ("finished", "completed"), ("failed", "failed"),
   ("error", "failed"), ("busy", "busy"), ("no-answer", "no-answer"),
   ("noanswer", "no-answer"), ("cancelled", "canceled"), ("canceled", "canceled")]

/-- `map_call_status` (lines 224-269): event-based mapping first, else the
direct table, else `'in-progress'`.  The `.lower()` calls raise
`AttributeError` when the resolved status or event is not a string. -/
def map_call_status (data : List (String × PyVal)) : Except PyErr String := do
  let status ← pyLowerM (pyOr (dgetD data "status" (.str ""))
      (pyOr (dgetD data "CallStatus" (.str ""))
        (pyOr (dgetD data "call_status" (.str "")) (dgetD data "state" (.str "")))))
  let event ← pyLowerM (pyOr (dgetD data "event" (.str "")) (dgetD data "Event" (.str "")))
  let viaEvent : Option String :=
    if event ≠ "" then lookupStr event_status_map event else Option.none
  match viaEvent with
  | some v => return v
  | Option.none => return (lookupStr status_map status).getD "in-progress"

/-- A character kept by the phone cleaners (`c.isdigit() or c == '+'`);
`isdigit` modelled on ASCII digits. -/
def isPhoneChar (c : Char) : Bool := c.isDigit || c == '+'

/-- The prefixing rules of `format_phone_number` (lines 281-288) applied to
the cleaned character list `c`. -/
def fpnStep (c : List Char) : List Char :=
  if ¬ c.isEmpty ∧ c.head? ≠ some '+' then
    if c.head? = some '1' ∧ c.length = 11 then '+' :: c
    else if c.length = 10 then '+' :: '1' :: c
    else if 10 < c.length then '+' :: c
    else c
  else c

/-- Core of `format_phone_number` (lines 272-290) on the character list:
strip to digits and `+`, then apply the prefixing rules. -/
def fpnL (l : List Char) : List Char :=
  fpnStep (l.filter isPhoneChar)

/-- `format_phone_number` (lines 272-290): empty on falsy input, else strip
to digits and `+` and prefix a country code by the length rules. -/
def format_phone_number (number : PyVal) : String :=
  if ¬ pyTruthy number then ""
  else String.mk (fpnL (pyStr number).data)

/-- `pyFloatToIntTrunc v` models `int(float(v))`: integers and booleans
convert directly, strings parse as (exponent-free) decimal literals with the
fraction truncated, everything else is a `TypeError`/`ValueError` (`none`). -/
def parseDecTrunc (s : String) : Option Int :=
  let t := ((s.data.dropWhile Char.isWhitespace).reverse.dropWhile
      Char.isWhitespace).reverse
  let (neg, rest) :=
    match t with
    | '-' :: r => (true, r)
    | '+' :: r => (false, r)
    | r => (false, r)
  let ip := rest.takeWhile Char.isDigit
  let rest2 := rest.drop ip.length
  let ok :=
    match rest2 with
    | [] => !ip.isEmpty
    | '.' :: fr => (!ip.isEmpty || !fr.isEmpty) && fr.all Char.isDigit
    | _ => false
  if ok then
    let n : Nat := ip.foldl (fun a c => a * 10 + (c.toNat - 48)) 0
    some (if neg then -(n : Int) else (n : Int))
  else Option.none

/-- `int(float(v))` as used in `extract_call_duration`. -/
def pyFloatToIntTrunc : PyVal → Option Int
  | .int n => some n
  | .bool b => some (if b then 1 else 0)
  | .str s => parseDecTrunc s
  | _ => Option.none

/-- `extract_call_duration` (lines 293-301): total, the `try/except`
collapses conversion failures to `''`. -/
def extract_call_duration (data : List (String × PyVal)) : String :=
  let duration := pyOr (dget data "duration") (pyOr (dget data "CallDuration")
      (pyOr (dget data "call_duration") (pyOr (dget data "seconds") (.int 0))))
  match pyFloatToIntTrunc duration with
  | some n => toString n
  | Option.none => ""

/-- `extract_duration_minutes` (lines 304-313); `//` is floor division. -/
def extract_duration_minutes (data : List (String × PyVal)) : String :=
  let ds := extract_call_duration data
  if ds ≠ "" then
    match parseDecTrunc ds with
    | some n => toString (Int.fdiv n 60)
    | Option.none => ""
  else ""

/-! ## webhook_helper.py: the `add_*` parameter groups -/

/-- `add_geographic_params` (lines 316-338). -/
def add_geographic_params (fmt data : List (String × PyVal)) :
    Except PyErr (List (String × PyVal)) := do
  let geo := pyOr (dgetD data "geography" (.dict [])) (dgetD data "geo" (.dict []))
  let fromCity ← pyGetD geo "fromCity" (dgetD data "fromCity" (dgetD data "FromCity" (.str "")))
  let fromState ← pyGetD geo "fromState" (dgetD data "fromState" (dgetD data "FromState" (.str "")))
  let fromZip ← pyGetD geo "fromZip" (dgetD data "fromZip" (dgetD data "FromZip" (.str "")))
  let fromCountry ← pyGetD geo "fromCountry" (dgetD data "fromCountry" (dgetD data "FromCountry" (.str "US")))
  let toCity ← pyGetD geo "toCity" (dgetD data "toCity" (dgetD data "ToCity" (.str "")))
  let toState ← pyGetD geo "toState" (dgetD data "toState" (dgetD data "ToState" (.str "")))
  let toZip ← pyGetD geo "toZip" (dgetD data "toZip" (dgetD data "ToZip" (.str "")))
  let toCountry ← pyGetD geo "toCountry" (dgetD data "toCountry" (dgetD data "ToCountry" (.str "US")))
  let all_geo : List (String × PyVal) :=
    [("FromCity", fromCity), ("FromState", fromState), ("FromZip", fromZip),
     ("FromCountry", fromCountry), ("ToCity", toCity), ("ToState", toState),
     ("ToZip", toZip), ("ToCountry", toCountry)]
  return dupdate fmt (all_geo.filter (fun kv => pyTruthy kv.2))

/-- The provider-to-canonical AMD table of `add_amd_params` (lines 355-365). -/
def amd_mapping : List (String × String) :=
  [("HUMAN", "human"), ("PERSON", "human"), ("MACHINE", "machine"),
   ("VOICEMAIL", "machine"), ("FAX", "fax"), ("NOTSURE", "human"),
   ("NOT_SURE", "human"), ("UNKNOWN", "unknown"), ("UNCLEAR", "unknown")]

/-- `add_amd_params` (lines 341-373): a truthy direct `AnsweredBy`-spelling
field is stored verbatim; otherwise a truthy `amd` object is consulted
through `amd_mapping`. -/
def add_amd_params (fmt data : List (String × PyVal)) :
    Except PyErr (List (String × PyVal)) := do
  let amd_data := pyOr (dgetD data "amd" (.dict [])) (.dict [])
  let answered_by := pyOr (dget data "AnsweredBy")
      (pyOr (dget data "answeredBy") (dget data "answered_by"))
  if pyTruthy answered_by then
    return dset fmt "AnsweredBy" answered_by
  else if pyTruthy amd_data then
    let sv ← pyGetD amd_data "status" (.str "")
    let status := asciiUpper (pyStr sv)
    match lookupStr amd_mapping status with
    | some m =>
      let fmt := dset fmt "AnsweredBy" (.str m)
      let score ← pyGetD amd_data "score" .none
      let confidence ← pyGetD amd_data "confidence" score
      if ¬ (confidence == PyVal.none) then
        return dset fmt "MachineDetectionConfidence" (.str (pyStr confidence))
      else return fmt
    | Option.none => return fmt
  else return fmt

/-- `add_event_specific_params` (lines 376-413). -/
def add_event_specific_params (fmt data : List (String × PyVal)) :
    Except PyErr (List (String × PyVal)) := do
  let event_type ← pyLowerM (pyOr (dgetD data "event" (.str "")) (dgetD data "Event" (.str "")))
  if strContains event_type "dtmf" || strContains event_type "digit" then
    let digits := pyOr (dget data "digit") (pyOr (dget data "digits")
        (pyOr (dget data "Digits") (pyOr (dget data "dtmf") (.str ""))))
    if pyTruthy digits then return dset fmt "Digits" (.str (pyStr digits))
    else return fmt
  else if strContains event_type "gather" then
    let digits := pyOr (dget data "digits") (pyOr (dget data "Digits")
        (pyOr (dget data "input") (pyOr (dget data "result") (.str ""))))
    let fmt ←
      if pyTruthy digits then do
        let dl ← pyLowerM digits
        if dl = "timeout" then pure (dset fmt "Digits" (.str "TIMEOUT"))
        else pure (dset fmt "Digits" (.str (pyStr digits)))
      else pure fmt
    let speech := pyOr (dget data "speechResult") (pyOr (dget data "SpeechResult")
        (pyOr (dget data "speech_result") (dget data "transcript")))
    if pyTruthy speech then
      let fmt := dset fmt "SpeechResult" (.str (pyStr speech))
      let confidence := pyOr (dget data "confidence")
          (pyOr (dget data "Confidence") (dget data "speech_confidence"))
      if ¬ (confidence == PyVal.none) then
        return dset fmt "Confidence" (.str (pyStr confidence))
      else return fmt
    else return fmt
  else if ¬ pyTruthy (dget fmt "Digits") then
    let digits := pyOr (dget data "Digits") (pyOr (dget data "digits")
        (pyOr (dget data "digit") (dget data "input")))
    if pyTruthy digits then return dset fmt "Digits" (.str (pyStr digits))
    else return fmt
  else return fmt

/-- `add_status_callback_params` (lines 416-429).  `format_timestamp`
parses wall-clock timestamps and falls back to the current time, so it is
threaded in as the `fmtTs` parameter. -/
def add_status_callback_params (fmtTs : PyVal → String)
    (fmt data : List (String × PyVal)) : Except PyErr (List (String × PyVal)) := do
  let event_type ← pyLowerM (pyOr (dgetD data "event" (.str "")) (dgetD data "Event" (.str "")))
  if strContains event_type "initiated" || strContains event_type "ringing" ||
      strContains event_type "answered" || strContains event_type "completed" then
    let fmt := dset fmt "CallbackSource" (.str "call-progress-events")
    let fmt := dset fmt "SequenceNumber"
        (.str (pyStr (dgetD data "sequenceNumber" (dgetD data "sequence" (.int 0)))))
    let timestamp := pyOr (dget data "timestamp") (pyOr (dget data "Timestamp")
        (pyOr (dget data "time") (dget data "event_time")))
    if pyTruthy timestamp then return dset fmt "Timestamp" (.str (fmtTs timestamp))
    else return fmt
  else return fmt

/-- `add_recording_params` (lines 432-457). -/
def add_recording_params (fmtTs : PyVal → String)
    (fmt data : List (String × PyVal)) : Except PyErr (List (String × PyVal)) := do
  let event_type ← pyLowerM (pyOr (dgetD data "event" (.str "")) (dgetD data "Event" (.str "")))
  if strContains event_type "recording" || pyTruthy (dget data "recordingId") ||
      pyTruthy (dget data "RecordingSid") then
    let recording_params : List (String × PyVal) :=
      [("RecordingSid", pyOr (dget data "recordingId")
          (pyOr (dget data "RecordingSid") (pyOr (dget data "recording_sid") (.str "")))),
       ("RecordingUrl", pyOr (dget data "recordingUrl")
          (pyOr (dget data "RecordingUrl") (pyOr (dget data "recording_url")
            (pyOr (dget data "url") (.str ""))))),
       ("RecordingDuration", .str (pyStr (dgetD data "recordingDuration"
          (dgetD data "RecordingDuration" (dgetD data "recording_duration" (.int 0)))))),
       ("RecordingStatus", .str "completed"),
       ("RecordingChannels", .str (pyStr (dgetD data "channels"
          (dgetD data "RecordingChannels" (.int 1))))),
       ("RecordingSource", .str "OutboundAPI"),
       ("RecordingTrack", dgetD data "track" (dgetD data "RecordingTrack" (.str "both")))]
    let start_time := pyOr (dget data "recordingStartTime")
        (pyOr (dget data "RecordingStartTime") (dget data "recording_start_time"))
    let recording_params :=
      if pyTruthy start_time then
        dset recording_params "RecordingStartTime" (.str (fmtTs start_time))
      else recording_params
    return dupdate fmt (recording_params.filter
      (fun kv => pyTruthy kv.2 && !(kv.2 == PyVal.str "0")))
  else return fmt

/-- `add_dial_conference_params` (lines 460-479). -/
def add_dial_conference_params (fmt data : List (String × PyVal)) :
    Except PyErr (List (String × PyVal)) := do
  let event_type ← pyLowerM (pyOr (dgetD data "event" (.str "")) (dgetD data "Event" (.str "")))
  if strContains event_type "dial" || strContains event_type "conference" then
    let dial_status ← map_call_status
        [("status", dgetD data "dialStatus" (dgetD data "DialCallStatus" (.str "")))]
    let dial_params : List (String × PyVal) :=
      [("DialCallSid", pyOr (dget data "dialCallSid")
          (pyOr (dget data "DialCallSid") (pyOr (dget data "dial_call_sid") (.str "")))),
       ("DialCallStatus", .str dial_status),
       ("DialCallDuration", .str (pyStr (dgetD data "dialDuration"
          (dgetD data "DialCallDuration" (.int 0))))),
       ("ConferenceSid", pyOr (dget data "conferenceSid")
          (pyOr (dget data "ConferenceSid") (pyOr (dget data "conference_sid") (.str "")))),
       ("FriendlyName", pyOr (dget data "conferenceName")
          (pyOr (dget data "FriendlyName") (pyOr (dget data "conference_name") (.str "")))),
       ("Muted", .str (asciiLower (pyStr (dgetD data "muted" (.bool false))))),
       ("Hold", .str (asciiLower (pyStr (dgetD data "hold" (.bool false)))))]
    return dupdate fmt (dial_params.filter
      (fun kv => pyTruthy kv.2 && !(kv.2 == PyVal.str "false") && !(kv.2 == PyVal.str "0")))
  else return fmt

/-- `add_sip_params` (lines 482-496). -/
def add_sip_params (fmt data : List (String × PyVal)) : List (String × PyVal) :=
  if pyTruthy (dget data "sipCallId") || pyTruthy (dget data "sipResponseCode") ||
      strContains (asciiLower (pyStr (dgetD data "event" (.str "")))) "sip" then
    let sip_params : List (String × PyVal) :=
      [("SipCallId", pyOr (dget data "sipCallId")
          (pyOr (dget data "SipCallId") (pyOr (dget data "sip_call_id") (.str "")))),
       ("SipResponseCode", .str (pyStr (dgetD data "sipResponseCode"
          (dgetD data "SipResponseCode" (.int 200))))),
       ("SipHeader_User_Agent", pyOr (dget data "sipUserAgent")
          (pyOr (dget data "SipHeader_User_Agent") (pyOr (dget data "sip_user_agent") (.str "")))),
       ("SipHeader_Contact", pyOr (dget data "sipContact")
          (pyOr (dget data "SipHeader_Contact") (pyOr (dget data "sip_contact") (.str ""))))]
    dupdate fmt (sip_params.filter
      (fun kv => pyTruthy kv.2 && !(kv.2 == PyVal.str "200")))
  else fmt

/-- `add_additional_params` (lines 499-518). -/
def add_additional_params (fmt data : List (String × PyVal)) : List (String × PyVal) :=
  let fmt :=
    if pyTruthy (dget data "errorCode") || pyTruthy (dget data "ErrorCode") then
      dset fmt "ErrorCode" (.str (pyStr (dgetD data "errorCode" (dget data "ErrorCode"))))
    else fmt
  let fmt :=
    if pyTruthy (dget data "errorMessage") || pyTruthy (dget data "ErrorMessage") then
      dset fmt "ErrorMessage" (.str (pyStr (dgetD data "errorMessage" (dget data "ErrorMessage"))))
    else fmt
  let fmt :=
    if pyTruthy (dget data "queueSid") || pyTruthy (dget data "QueueSid") then
      dset fmt "QueueSid" (.str (pyStr (dgetD data "queueSid" (dget data "QueueSid"))))
    else fmt
  let fmt :=
    if pyTruthy (dget data "queueName") || pyTruthy (dget data "QueueName") then
      dset fmt "QueueName" (.str (pyStr (dgetD data "queueName" (dget data "QueueName"))))
    else fmt
  if pyTruthy (dget data "applicationSid") || pyTruthy (dget data "ApplicationSid") then
    dset fmt "ApplicationSid" (.str (pyStr (dgetD data "applicationSid" (dget data "ApplicationSid"))))
  else fmt

/-- `enhance_twilio_data` (lines 521-533): the already-canonical short-circuit
path; fills `ApiVersion`/`Direction` defaults, stringifies every value, and
drops `None`s and values whose `str` is empty. -/
def enhance_twilio_data (data : List (String × PyVal)) : List (String × PyVal) :=
  let enhanced := data
  let enhanced :=
    if ¬ pyTruthy (dget enhanced "ApiVersion") then
      dset enhanced "ApiVersion" (.str "2010-04-01")
    else enhanced
  let enhanced :=
    if ¬ pyTruthy (dget enhanced "Direction") then
      dset enhanced "Direction" (.str "outbound-api")
    else enhanced
  (enhanced.filter (fun kv => !(kv.2 == PyVal.none) && !(pyStr kv.2).isEmpty)).map
    (fun kv => (kv.1, PyVal.str (pyStr kv.2)))

/-- `convert_to_twilio_format` (lines 107-184).  `genSid` is the impure
generated fallback call SID (see `extract_call_sid`) and `fmtTs` the impure
timestamp formatter (see `add_status_callback_params`). -/
def convert_to_twilio_format (genSid : String) (fmtTs : PyVal → String)
    (dataV : PyVal) : Except PyErr (List (String × PyVal)) := do
  match dataV with
  | .dict data =>
    if (lookupVal data "CallSid").isSome && (lookupVal data "event").isNone then
      return enhance_twilio_data data
    else
      let callSid ← extract_call_sid genSid data
      let accountSid := dgetD data "accountSid"
          (dgetD data "AccountSid" (.str ("AC" ++ String.mk (List.replicate 32 'x'))))
      let fromNumber := format_phone_number (extract_from_number data)
      let toNumber := format_phone_number (extract_to_number data)
      let callStatus ← map_call_status data
      let core : List (String × PyVal) :=
        [("CallSid", .str callSid),
         ("AccountSid", accountSid),
         ("ApiVersion", .str "2010-04-01"),
         ("From", .str fromNumber),
         ("To", .str toNumber),
         ("CallStatus", .str callStatus),
         ("Direction", dgetD data "Direction" (.str "outbound-api")),
         ("CallDuration", .str (extract_call_duration data)),
         ("Duration", .str (extract_duration_minutes data))]
      let fmt := core.filter (fun kv => pyTruthy kv.2)
      let optional_params : List (String × PyVal) :=
        [("ForwardedFrom", .str (format_phone_number
            (dgetD data "forwardedFrom" (dgetD data "ForwardedFrom" (.str ""))))),
         ("CallerName", dgetD data "callerName" (dgetD data "CallerName" (.str ""))),
         ("ParentCallSid", dgetD data "parentCallSid" (dgetD data "ParentCallSid" (.str ""))),
         ("CallToken", dgetD data "callToken" (dgetD data "CallToken" (.str "")))]
      let fmt := dupdate fmt (optional_params.filter (fun kv => pyTruthy kv.2))
      let fmt ← add_geographic_params fmt data
      let fmt ← add_amd_params fmt data
      let fmt ← add_event_specific_params fmt data
      let fmt ← add_status_callback_params fmtTs fmt data
      let fmt ← add_recording_params fmtTs fmt data
      let fmt ← add_dial_conference_params fmt data
      let fmt := add_sip_params fmt data
      return add_additional_params fmt data
  | _ => return []

/-- The closed set of canonical call statuses (spec §3). -/
def canonicalStatuses : List String :=
  ["queued", "ringing", "in-progress", "completed", "failed", "busy",
   "no-answer", "canceled"]

/-- Keys written by `add_geographic_params`. -/
def geoParamKeys : List String :=
  ["FromCity", "FromState", "FromZip", "FromCountry",
   "ToCity", "ToState", "ToZip", "ToCountry"]

/-- Keys written by `add_amd_params`. -/
def amdParamKeys : List String := ["AnsweredBy", "MachineDetectionConfidence"]

/-- Keys written by `add_event_specific_params`. -/
def eventParamKeys : List String := ["Digits", "SpeechResult", "Confidence"]

/-- Keys written by `add_status_callback_params`. -/
def statusCallbackParamKeys : List String :=
  ["CallbackSource", "SequenceNumber", "Timestamp"]

/-- Keys written by `add_recording_params`. -/
def recordingParamKeys : List String :=
  ["RecordingSid", "RecordingUrl", "RecordingDuration", "RecordingStatus",
   "RecordingChannels", "RecordingSource", "RecordingTrack", "RecordingStartTime"]

/-- Keys written by `add_dial_conference_params`. -/
def dialParamKeys : List String :=
  ["DialCallSid", "DialCallStatus", "DialCallDuration", "ConferenceSid",
   "FriendlyName", "Muted", "Hold"]

/-- Keys written by `add_sip_params`. -/
def sipParamKeys : List String :=
  ["SipCallId", "SipResponseCode", "SipHeader_User_Agent", "SipHeader_Contact"]

/-- Keys written by `add_additional_params`. -/
def additionalParamKeys : List String :=
  ["ErrorCode", "ErrorMessage", "QueueSid", "QueueName", "ApplicationSid"]

/-- Keys written to the optional-parameter group of `convert_to_twilio_format`. -/
def optionalParamKeys : List String :=
  ["ForwardedFrom", "CallerName", "ParentCallSid", "CallToken"]

/-- Does `convert_to_twilio_format` take the already-canonical short-circuit
(`'CallSid' in data and 'event' not in data`)? -/
def shortCircuits : PyVal → Bool
  | .dict data => (lookupVal data "CallSid").isSome && (lookupVal data "event").isNone
  | _ => false

/-! ## rest/api/v2010/account/call.py and call/__init__.py -/

/-- The `status_mapping` table shared verbatim by `CallInstance._map_status`
in `call.py` (lines 88-102) and `call/__init__.py` (lines 86-100). -/
def call_status_mapping : List (String × String) :=
  [("queued", "queued"), ("ringing", "ringing"), ("answered", "in-progress"),
   ("in-progress", "in-progress"), ("active", "in-progress"), ("completed", "completed"),
   ("ended", "completed"), ("failed", "failed"), ("error", "failed"), ("busy", "busy"),
   ("no-answer", "no-answer"), ("cancelled", "canceled"), ("canceled", "canceled")]

/-- `CallInstance._map_status` from `call.py` (lines 86-103):
`status_mapping.get(kaphila_status.lower(), 'queued')`. -/
def mapStatusCreation (kaphila_status : String) : String :=
  (lookupStr call_status_mapping (asciiLower kaphila_status)).getD "queued"

/-- `CallInstance._map_status` from `call/__init__.py` (lines 84-101):
same table, with `str(status)` applied first. -/
def mapStatusCreationInit (status : PyVal) : String :=
  (lookupStr call_status_mapping (asciiLower (pyStr status))).getD "queued"

/-- The answered-by table shared by `CallInstance._get_answered_by`
(`call.py` lines 147-153) and `CallInstance._extract_answered_by`
(`call/__init__.py` lines 150-156). -/
def answered_by_mapping : List (String × String) :=
  [("HUMAN", "human"), ("MACHINE", "machine"), ("NOTSURE", "human"),
   ("NOT_SURE", "human"), ("UNKNOWN", "unknown")]

/-- `CallInstance._get_answered_by` from `call.py` (lines 141-154): `None`
for a falsy `amd` object, else `mapping.get(amd_data.get('status','').upper())`
(absent table entry gives `None`). -/
def getAnsweredBy (amd_data : PyVal) : Except PyErr (Option String) :=
  if ¬ pyTruthy amd_data then .ok Option.none
  else do
    let sv ← pyGetD amd_data "status" (.str "")
    let status ← pyUpperM sv
    return lookupStr answered_by_mapping status

/-- `CallInstance._extract_answered_by` from `call/__init__.py`
(lines 139-159): a truthy direct field is lowercased and returned; otherwise
the `amd` object goes through the same table. -/
def extractAnsweredBy (payload : List (String × PyVal)) : Except PyErr (Option String) := do
  let answered_by := dgetD payload "AnsweredBy" (dget payload "answeredBy")
  if pyTruthy answered_by then
    return some (asciiLower (pyStr answered_by))
  else
    let amd_data := dgetD payload "amd" (.dict [])
    if pyTruthy amd_data then
      let sv ← pyGetD amd_data "status" (.str "")
      return lookupStr answered_by_mapping (asciiUpper (pyStr sv))
    else
      return Option.none

/-- The prefixing rules of `CallInstance._format_phone` (`call/__init__.py`
lines 126-129): note the branch order differs from `format_phone_number`
and there is no `>10` branch. -/
def fpcStep (c : List Char) : List Char :=
  if ¬ c.isEmpty ∧ c.head? ≠ some '+' then
    if c.length = 10 then '+' :: '1' :: c
    else if c.head? = some '1' ∧ c.length = 11 then '+' :: c
    else c
  else c

/-- Core of `CallInstance._format_phone` (`call/__init__.py` lines 119-129)
on the character list. -/
def fpcL (l : List Char) : List Char :=
  fpcStep (l.filter isPhoneChar)

/-- `CallInstance._format_phone` (`call/__init__.py` lines 119-129). -/
def formatPhoneCall (phone : PyVal) : String :=
  if ¬ pyTruthy phone then ""
  else String.mk (fpcL (pyStr phone).data)

/-- `TwilioRestException` (base/__init__.py): message, optional numeric
error code, optional HTTP status. -/
structure TwilioRestException where
  message : String
  code : Option Int
  status : Option Int
deriving Repr, DecidableEq

/-- The fields of a `CallInstance` that `delete` could read or write. -/
structure CallInstanceState where
  sid : String
  callStatus : String
deriving Repr, DecidableEq

/-- `CallInstance.delete` from `call.py` (lines 239-249): unconditionally
`raise TwilioRestException("Call record deletion is not supported", code=20005)`;
the instance state is returned unchanged (the body reads and writes nothing). -/
def callInstanceDelete (inst : CallInstanceState) :
    Except TwilioRestException Bool × CallInstanceState :=
  (.error ⟨"Call record deletion is not supported", some 20005, Option.none⟩, inst)

/-- `MessageList.create` (message.py lines 21-28): always raises 20404. -/
def messageListCreate (_kwargs : List (String × PyVal)) :
    Except TwilioRestException PyVal :=
  .error ⟨"SMS/MMS messaging is not supported by Kaphila API", some 20404, Option.none⟩

/-- `MessageList.get` (message.py lines 48-55): always raises 20404. -/
def messageListGet (_sid : String) : Except TwilioRestException PyVal :=
  .error ⟨"SMS/MMS messaging is not supported by Kaphila API", some 20404, Option.none⟩

/-- `MessageList.list` (message.py lines 30-37): returns an empty list. -/
def messageListList (_kwargs : List (String × PyVal)) :
    Except TwilioRestException (List PyVal) :=
  .ok []

/-! ## twiml/voice_response.py: the TwiML document model -/

/-- An `xml.etree.ElementTree.Element`: tag, attributes in insertion order,
optional text, ordered children. -/
structure XElem where
  name : String
  attrs : List (String × String)
  text : Option String
  children : List XElem

/-- Truthiness of an optional-string parameter (`None` and `''` falsy). -/
def truthyOpt : Option String → Bool
  | some s => !s.isEmpty
  | Option.none => false

/-- `if param: elem.set(key, param)` for an optional string parameter. -/
def optAttr (k : String) (v : Option String) : List (String × String) :=
  match v with
  | some s => if s.isEmpty then [] else [(k, s)]
  | Option.none => []

/-- Python `a or b` on optional strings. -/
def pyOrStr (a b : Option String) : Option String :=
  if truthyOpt a then a else b

/-- The element built by `VoiceResponse.say` (lines 53-76) and, with the same
attribute logic, by `Gather.say` (lines 573-584): `voice` and `language` only
when truthy, `loop` only when different from its default `1`. -/
def sayElem (message : String) (voice language : Option String) (loop : Int) : XElem :=
  { name := "Say",
    attrs := optAttr "voice" voice ++ optAttr "language" language ++
      (if loop ≠ 1 then [("loop", toString loop)] else []),
    text := some message,
    children := [] }

/-- `VoiceResponse.say`: appends the Say element to the root. -/
def voiceResponseSay (root : XElem) (message : String) (voice language : Option String)
    (loop : Int) : XElem :=
  { root with children := root.children ++ [sayElem message voice language loop] }

/-- `Gather.say` (lines 573-584): appends the Say element under the Gather
element and returns the Gather builder. -/
def gatherSay (gather : XElem) (message : String) (voice language : Option String)
    (loop : Int) : XElem :=
  { gather with children := gather.children ++ [sayElem message voice language loop] }

/-- The element built by `Dial.number` (lines 632-672). -/
def numberElem (phone_number : String) (send_digits url : Option String)
    (method : String) (status_callback_event : Option (List String))
    (status_callback : Option String) (status_callback_method : String)
    (kwargs : List (String × String)) : XElem :=
  { name := "Number",
    attrs := optAttr "sendDigits" send_digits ++
      (let uv := pyOrStr url status_callback
       if truthyOpt uv then [("url", uv.getD "")] else []) ++
      (if method ≠ "POST" then [("method", method)] else []) ++
      (match status_callback_event with
       | some evs => [("statusCallbackEvent", String.intercalate " " evs)]
       | Option.none => []) ++
      (if status_callback_method ≠ "POST" then
        [("statusCallbackMethod", status_callback_method)] else []) ++ kwargs,
    text := some phone_number,
    children := [] }

/-- The Dial element built by `VoiceResponse.dial` (lines 236-307), with the
immediate `Number` child when a `number` argument is given. -/
def dialElem (number : Option String) (action : Option String) (method : String)
    (timeout : Int) (hangup_on_star : Bool) (time_limit : Int)
    (caller_id record : Option String) (trim : String)
    (recording_status_callback : Option String)
    (recording_status_callback_method : String)
    (recording_status_callback_event : Option (List String))
    (answer_on_bridge : Bool) (ring_tone : Option String)
    (kwargs : List (String × String)) : XElem :=
  { name := "Dial",
    attrs := optAttr "action" action ++
      (if method ≠ "POST" then [("method", method)] else []) ++
      (if timeout ≠ 30 then [("timeout", toString timeout)] else []) ++
      (if hangup_on_star then [("hangupOnStar", "true")] else []) ++
      (if time_limit ≠ 14400 then [("timeLimit", toString time_limit)] else []) ++
      optAttr "callerId" caller_id ++
      optAttr "record" record ++
      (if trim ≠ "trim-silence" then [("trim", trim)] else []) ++
      optAttr "recordingStatusCallback" recording_status_callback ++
      (if recording_status_callback_method ≠ "POST" then
        [("recordingStatusCallbackMethod", recording_status_callback_method)] else []) ++
      (match recording_status_callback_event with
       | some evs => if evs.isEmpty then []
          else [("recordingStatusCallbackEvent", String.intercalate " " evs)]
       | Option.none => []) ++
      (if answer_on_bridge then [("answerOnBridge", "true")] else []) ++
      optAttr "ringTone" ring_tone ++ kwargs,
    text := Option.none,
    children :=
      if truthyOpt number then
        [numberElem (number.getD "") Option.none Option.none "POST"
          Option.none Option.none "POST" []]
      else [] }

/-- The Enqueue element built by `VoiceResponse.enqueue` (lines 374-414);
without a `name` argument the element stays textless and an `Enqueue`
builder wrapping it is returned. -/
def enqueueElem (name : Option String) (action : Option String) (method : String)
    (wait_url : Option String) (wait_url_method : String)
    (workflow_sid : Option String) (kwargs : List (String × String)) : XElem :=
  { name := "Enqueue",
    attrs := optAttr "action" action ++
      (if method ≠ "POST" then [("method", method)] else []) ++
      optAttr "waitUrl" wait_url ++
      (if wait_url_method ≠ "POST" then [("waitUrlMethod", wait_url_method)] else []) ++
      optAttr "workflowSid" workflow_sid ++ kwargs,
    text := if truthyOpt name then name else Option.none,
    children := [] }

/-- The module-level imports of `twiml/voice_response.py` (lines 6-8):
`xml.etree.ElementTree` names, `typing` names and `re` -- and nothing else;
in particular `json` is never imported in that module. -/
def voiceResponseModuleImports : List String :=
  ["xml.etree.ElementTree", "typing", "re"]

/-- `Enqueue.task` (lines 889-898).  A `Task` child is appended; then, for
the first attribute whose value is not `None`, the loop body executes
`task_elem.text = json.dumps(attributes)` -- and resolving the global name
`json` fails with `NameError`, since `voiceResponseModuleImports` lacks it.
With no non-`None` attribute the loop body never runs and the builder is
returned with a textless `Task` child. -/
def enqueueTask (enqueue : XElem) (attributes : List (String × PyVal)) :
    Except PyErr XElem :=
  let task : XElem := { name := "Task", attrs := [], text := Option.none, children := [] }
  if attributes.any (fun kv => !(kv.2 == PyVal.none)) then
    .error (.nameError "json")
  else
    .ok { enqueue with children := enqueue.children ++ [task] }

/-! # Theorems

Association-list bookkeeping first, then the claims. -/

theorem lookupVal_dset_self (d : List (String × PyVal)) (k : String) (v : PyVal) :
    lookupVal (dset d k v) k = some v := by
  induction d with
  | nil => simp [dset, lookupVal]
  | cons hd t ih =>
    obtain ⟨k', v'⟩ := hd
    by_cases hk : k' = k
    · simp [dset, hk, lookupVal]
    · simp [dset, hk, lookupVal, ih]

theorem lookupVal_dset_ne (d : List (String × PyVal)) (k k' : String) (v : PyVal)
    (h : k' ≠ k) : lookupVal (dset d k' v) k = lookupVal d k := by
  induction d with
  | nil => simp [dset, lookupVal, h]
  | cons hd t ih =>
    obtain ⟨k₀, v₀⟩ := hd
    by_cases hk : k₀ = k'
    · subst hk
      simp [dset, lookupVal, h]
    · simp [dset, hk, lookupVal, ih]

theorem lookupVal_dupdate_ne (kvs : List (String × PyVal))
    (d : List (String × PyVal)) (k : String)
    (h : ∀ kv ∈ kvs, kv.1 ≠ k) :
    lookupVal (dupdate d kvs) k = lookupVal d k := by
  induction kvs generalizing d with
  | nil => rfl
  | cons kv t ih =>
    have step : dupdate d (kv :: t) = dupdate (dset d kv.1 kv.2) t := rfl
    rw [step, ih _ (fun x hx => h x (List.mem_cons_of_mem _ hx)),
      lookupVal_dset_ne _ _ _ _ (h kv (List.mem_cons_self _ _))]

theorem lookupVal_filter (l : List (String × PyVal)) (p : String × PyVal → Bool)
    (k : String) (h : ∀ v : PyVal, (k, v) ∈ l → p (k, v) = true) :
    lookupVal (l.filter p) k = lookupVal l k := by
  induction l with
  | nil => rfl
  | cons hd t ih =>
    obtain ⟨k', v'⟩ := hd
    by_cases hk : k' = k
    · subst hk
      rw [List.filter_cons_of_pos (h v' (List.mem_cons_self _ _))]
      simp [lookupVal]
    · have ih' := ih (fun v hv => h v (List.mem_cons_of_mem _ hv))
      by_cases hp : p (k', v') = true
      · rw [List.filter_cons_of_pos hp]
        simp [lookupVal, hk, ih']
      · rw [List.filter_cons_of_neg (by simpa using hp)]
        simp [lookupVal, hk, ih']

theorem lookupStr_mem {t : List (String × String)} {k v : String}
    (h : lookupStr t k = some v) : (k, v) ∈ t := by
  induction t with
  | nil => simp [lookupStr] at h
  | cons hd tl ih =>
    obtain ⟨k', v'⟩ := hd
    by_cases hk : k' = k
    · subst hk
      simp [lookupStr] at h
      simp [h]
    · simp [lookupStr, hk] at h
      exact List.mem_cons_of_mem _ (ih h)

/-! ## C1: HMAC-SHA1 signature validation -/

theorem stringJoin_cons (a : String) (l : List String) :
    String.join (a :: l) = a ++ String.join l := by
  apply String.ext
  simp [String.join_eq]

theorem stringFoldl_append (l : List (String × String)) (acc : String) :
    l.foldl (fun a kv => a ++ (kv.1 ++ kv.2)) acc =
      acc ++ String.join (l.map fun kv => kv.1 ++ kv.2) := by
  induction l generalizing acc with
  | nil => simp [String.join]
  | cons kv t ih =>
    rw [List.foldl_cons, ih, List.map_cons, stringJoin_cons, String.append_assoc]

theorem getD_set_self {α : Type} (l : List α) (i : Nat) (a d : α)
    (h : i < l.length) : (l.set i a).getD i d = a := by
  induction l generalizing i with
  | nil => simp at h
  | cons x xs ih =>
    cases i with
    | zero => rfl
    | succ n => simpa using ih n (by simpa using h)

/-- **C1**: `validate_request` returns `true` iff the candidate signature
equals the base64 encoding of the HMAC-SHA1, keyed by the auth token, of the
URL followed by each key+value pair of the parameters in sorted order — and
hence returns `false` whenever any single character of the correctly
computed signature is altered. -/
theorem validate_request_iff (authToken url : String)
    (params : List (String × String)) (signature : String) :
    (validate_request authToken url params signature = true ↔
      signature = String.mk (base64Encode (hmacSha1 (utf8Encode authToken)
        (utf8Encode (url ++
          String.join ((sortedParams params).map fun kv => kv.1 ++ kv.2)))))) ∧
    (∀ i : Nat, ∀ c : Char,
      i < (expectedSignature authToken url params).data.length →
      c ≠ (expectedSignature authToken url params).data.getD i c →
      validate_request authToken url params
        (String.mk ((expectedSignature authToken url params).data.set i c)) = false) := by
  constructor
  · unfold validate_request expectedSignature validationString
    rw [stringFoldl_append, beq_iff_eq, eq_comm]
  · intro i c hi hc
    unfold validate_request
    apply beq_eq_false_iff_ne.mpr
    intro he
    have hd : (expectedSignature authToken url params).data =
        (expectedSignature authToken url params).data.set i c :=
      congrArg String.data he
    have hset := getD_set_self (expectedSignature authToken url params).data i c c hi
    rw [← hd] at hset
    exact hc hset.symm

set_option maxRecDepth 100000 in
/-- Concrete instance of `validate_request_iff`: flipping the first character
of a correctly computed signature makes validation fail. -/
theorem validate_request_iff_witness :
    validate_request "k" "u" [("a", "b")]
      (String.mk ((expectedSignature "k" "u" [("a", "b")]).data.set 0 '*')) = false :=
  (validate_request_iff "k" "u" [("a", "b")] "").2 0 '*' (by decide) (by decide)

/-! ## C8: idempotence of the phone normalizers -/

theorem fpnStep_shape (c : List Char) :
    fpnStep c = c ∨ (fpnStep c).head? = some '+' := by
  unfold fpnStep
  split
  · split
    · right; rfl
    · split
      · right; rfl
      · split
        · right; rfl
        · left; rfl
  · left; rfl

theorem fpnStep_of_plus (c : List Char) (h : c.head? = some '+') :
    fpnStep c = c := by
  unfold fpnStep
  rw [if_neg (fun hc => hc.2 h)]

theorem fpnStep_idem (c : List Char) : fpnStep (fpnStep c) = fpnStep c := by
  rcases fpnStep_shape c with h | h
  · rw [h]; exact h
  · exact fpnStep_of_plus _ h

theorem filter_fpnStep (c : List Char) (hc : c.filter isPhoneChar = c) :
    (fpnStep c).filter isPhoneChar = fpnStep c := by
  have h1 : isPhoneChar '+' = true := rfl
  have h2 : isPhoneChar '1' = true := rfl
  unfold fpnStep
  split
  · split
    · simp [List.filter_cons, h1, hc]
    · split
      · simp [List.filter_cons, h1, h2, hc]
      · split
        · simp [List.filter_cons, h1, hc]
        · exact hc
  · exact hc

theorem filter_isPhoneChar_idem (l : List Char) :
    (l.filter isPhoneChar).filter isPhoneChar = l.filter isPhoneChar := by
  simp [List.filter_filter]

theorem fpnL_idem (l : List Char) : fpnL (fpnL l) = fpnL l := by
  unfold fpnL
  rw [filter_fpnStep _ (filter_isPhoneChar_idem l)]
  exact fpnStep_idem _

theorem fpcStep_shape (c : List Char) :
    fpcStep c = c ∨ (fpcStep c).head? = some '+' := by
  unfold fpcStep
  split
  · split
    · right; rfl
    · split
      · right; rfl
      · left; rfl
  · left; rfl

theorem fpcStep_of_plus (c : List Char) (h : c.head? = some '+') :
    fpcStep c = c := by
  unfold fpcStep
  rw [if_neg (fun hc => hc.2 h)]

theorem fpcStep_idem (c : List Char) : fpcStep (fpcStep c) = fpcStep c := by
  rcases fpcStep_shape c with h | h
  · rw [h]; exact h
  · exact fpcStep_of_plus _ h

theorem filter_fpcStep (c : List Char) (hc : c.filter isPhoneChar = c) :
    (fpcStep c).filter isPhoneChar = fpcStep c := by
  have h1 : isPhoneChar '+' = true := rfl
  have h2 : isPhoneChar '1' = true := rfl
  unfold fpcStep
  split
  · split
    · simp [List.filter_cons, h1, h2, hc]
    · split
      · simp [List.filter_cons, h1, hc]
      · exact hc
  · exact hc

theorem fpcL_idem (l : List Char) : fpcL (fpcL l) = fpcL l := by
  unfold fpcL
  rw [filter_fpcStep _ (filter_isPhoneChar_idem l)]
  exact fpcStep_idem _

/-- **C8**: the phone normalizer is idempotent — for every input string `x`,
`format_phone_number (format_phone_number x) = format_phone_number x`, and
likewise for `CallInstance._format_phone`. -/
theorem format_phone_number_idempotent (x : String) :
    format_phone_number (.str (format_phone_number (.str x))) =
      format_phone_number (.str x) ∧
    formatPhoneCall (.str (formatPhoneCall (.str x))) = formatPhoneCall (.str x) := by
  obtain ⟨l⟩ := x
  constructor
  · cases l with
    | nil => rfl
    | cons a as =>
      show format_phone_number (.str ⟨fpnL (a :: as)⟩) = ⟨fpnL (a :: as)⟩
      cases hr : fpnL (a :: as) with
      | nil => rfl
      | cons b bs =>
        show (⟨fpnL (b :: bs)⟩ : String) = ⟨b :: bs⟩
        rw [← hr, fpnL_idem]
  · cases l with
    | nil => rfl
    | cons a as =>
      show formatPhoneCall (.str ⟨fpcL (a :: as)⟩) = ⟨fpcL (a :: as)⟩
      cases hr : fpcL (a :: as) with
      | nil => rfl
      | cons b bs =>
        show (⟨fpcL (b :: bs)⟩ : String) = ⟨b :: bs⟩
        rw [← hr, fpcL_idem]

/-! ## C4: default-valued attributes are omitted from serialization -/

theorem lookupStr_optAttr_append (kk : String) (v : Option String)
    (rest : List (String × String)) (k : String) (h : kk ≠ k) :
    lookupStr (optAttr kk v ++ rest) k = lookupStr rest k := by
  rcases v with _ | s
  · rfl
  · by_cases hs : s.isEmpty <;> simp [optAttr, hs, lookupStr, h]

/-- **C4**: a Say built with the default `loop=1` carries no `loop`
attribute while `loop=3` carries `loop="3"` (also for a Say appended inside
a Gather by `Gather.say`), and a Dial with no method override carries no
`method` attribute while `method='GET'` carries `method="GET"`. -/
theorem attribute_default_omission (message : String) (voice language : Option String)
    (g : XElem) (number : Option String) :
    lookupStr (sayElem message voice language 1).attrs "loop" = Option.none ∧
    lookupStr (sayElem message voice language 3).attrs "loop" = some "3" ∧
    (gatherSay g message voice language 1).children =
      g.children ++ [sayElem message voice language 1] ∧
    (gatherSay g message voice language 3).children =
      g.children ++ [sayElem message voice language 3] ∧
    lookupStr (dialElem number Option.none "POST" 30 false 14400 Option.none Option.none
      "trim-silence" Option.none "POST" Option.none false Option.none []).attrs "method" =
      Option.none ∧
    lookupStr (dialElem number Option.none "GET" 30 false 14400 Option.none Option.none
      "trim-silence" Option.none "POST" Option.none false Option.none []).attrs "method" =
      some "GET" := by
  refine ⟨?_, ?_, rfl, rfl, rfl, rfl⟩
  · show lookupStr (optAttr "voice" voice ++ optAttr "language" language ++ []) "loop" =
      Option.none
    rw [List.append_assoc, lookupStr_optAttr_append _ _ _ _ (by decide),
      lookupStr_optAttr_append _ _ _ _ (by decide)]
    rfl
  · show lookupStr (optAttr "voice" voice ++ optAttr "language" language ++
      [("loop", toString (3 : Int))]) "loop" = some "3"
    rw [List.append_assoc, lookupStr_optAttr_append _ _ _ _ (by decide),
      lookupStr_optAttr_append _ _ _ _ (by decide)]
    rfl

/-! ## C9: `Enqueue.task` and the missing `json` import -/

/-- **C9** (code evaluated at the failing input): on the builder returned by
`VoiceResponse.enqueue()` with no name, `task` with one non-`None` attribute
raises `NameError` — the module never imports `json` — instead of returning
the builder with a JSON-texted Task child. -/
theorem enqueue_task_raises_nameError :
    enqueueTask (enqueueElem Option.none Option.none "POST" Option.none "POST"
        Option.none []) [("priority", PyVal.str "high")] =
      .error (.nameError "json") ∧
    voiceResponseModuleImports.contains "json" = false :=
  ⟨rfl, rfl⟩

/-! ## C7: unsupported operations -/

/-- **C7 counterexample**: `MessageList.list` does not raise — it returns an
empty list, contradicting the claim that it always raises code 20404. -/
theorem messageList_list_returns_empty : messageListList [] = .ok [] := rfl

/-- **C7 (amended)**: `CallInstance.delete` always raises code 20005 leaving
the instance untouched, and `MessageList.create`/`get` always raise code
20404; `MessageList.list` instead returns an empty list. -/
theorem unsupported_operation_codes (inst : CallInstanceState)
    (kwargs : List (String × PyVal)) (sid : String) :
    callInstanceDelete inst =
      (.error ⟨"Call record deletion is not supported", some 20005, Option.none⟩, inst) ∧
    messageListCreate kwargs =
      .error ⟨"SMS/MMS messaging is not supported by Kaphila API", some 20404, Option.none⟩ ∧
    messageListGet sid =
      .error ⟨"SMS/MMS messaging is not supported by Kaphila API", some 20404, Option.none⟩ ∧
    messageListList kwargs = .ok [] :=
  ⟨rfl, rfl, rfl, rfl⟩

/-! ## C5: the two status mappers and their asymmetric defaults -/

theorem creation_lookup_in_event_table {k v : String}
    (h : lookupStr call_status_mapping k = some v) : lookupStr status_map k = some v := by
  have hall : ∀ kv ∈ call_status_mapping, lookupStr status_map kv.1 = some kv.2 := by
    decide
  exact hall (k, v) (lookupStr_mem h)

theorem map_call_status_single (s : String) :
    map_call_status [("status", PyVal.str s)] =
      .ok ((lookupStr status_map (asciiLower s)).getD "in-progress") := by
  obtain ⟨l⟩ := s
  cases l with
  | nil => rfl
  | cons a as => rfl

/-- **C5**: a raw status absent from its lookup table maps to `'queued'` in
the call-creation mappers and to `'in-progress'` in the event-normalization
mapper (with no event key present); a status present in the call-creation
table maps identically through all three. -/
theorem status_mapper_asymmetric_defaults (s : String) :
    (lookupStr call_status_mapping (asciiLower s) = Option.none →
      mapStatusCreation s = "queued" ∧ mapStatusCreationInit (.str s) = "queued") ∧
    (lookupStr status_map (asciiLower s) = Option.none →
      map_call_status [("status", PyVal.str s)] = .ok "in-progress") ∧
    (∀ v : String, lookupStr call_status_mapping (asciiLower s) = some v →
      mapStatusCreation s = v ∧ mapStatusCreationInit (.str s) = v ∧
      map_call_status [("status", PyVal.str s)] = .ok v) := by
  refine ⟨fun h => ?_, fun h => ?_, fun v h => ?_⟩
  · unfold mapStatusCreation mapStatusCreationInit
    rw [show pyStr (PyVal.str s) = s from rfl, h]
    exact ⟨rfl, rfl⟩
  · rw [map_call_status_single, h]
    rfl
  · have h2 := creation_lookup_in_event_table h
    unfold mapStatusCreation mapStatusCreationInit
    rw [show pyStr (PyVal.str s) = s from rfl, h, map_call_status_single, h2]
    exact ⟨rfl, rfl, rfl⟩

/-- Concrete instances of `status_mapper_asymmetric_defaults`: `'finished'`
is unmapped on the creation path (→ queued) yet mapped on the event path;
`'zzz'` is unmapped on the event path (→ in-progress); `'ANSWERED'` maps
identically (case-insensitively) through both. -/
theorem status_mapper_asymmetric_defaults_witness :
    mapStatusCreation "finished" = "queued" ∧
    map_call_status [("status", PyVal.str "zzz")] = .ok "in-progress" ∧
    mapStatusCreation "ANSWERED" = "in-progress" ∧
    map_call_status [("status", PyVal.str "ANSWERED")] = .ok "in-progress" :=
  ⟨((status_mapper_asymmetric_defaults "finished").1 (by rfl)).1,
   (status_mapper_asymmetric_defaults "zzz").2.1 (by rfl),
   ((status_mapper_asymmetric_defaults "ANSWERED").2.2 "in-progress" (by rfl)).1,
   ((status_mapper_asymmetric_defaults "ANSWERED").2.2 "in-progress" (by rfl)).2.2⟩

/-! ## C6: the answered-by mapper -/

/-- **C6**: the answered-by mapper implements exactly the documented table
over the AMD `status` field — `HUMAN→human`, `MACHINE→machine`,
`NOTSURE/NOT_SURE→human`, `UNKNOWN→unknown`, and absent or unrecognized
raw statuses yield no answered-by value; `_extract_answered_by` consults
the same table when no direct field is present. -/
theorem answered_by_table (s : String) (amd : List (String × PyVal)) :
    getAnsweredBy (.dict [("status", PyVal.str "HUMAN")]) = .ok (some "human") ∧
    getAnsweredBy (.dict [("status", PyVal.str "MACHINE")]) = .ok (some "machine") ∧
    getAnsweredBy (.dict [("status", PyVal.str "NOTSURE")]) = .ok (some "human") ∧
    getAnsweredBy (.dict [("status", PyVal.str "NOT_SURE")]) = .ok (some "human") ∧
    getAnsweredBy (.dict [("status", PyVal.str "UNKNOWN")]) = .ok (some "unknown") ∧
    (lookupStr answered_by_mapping (asciiUpper s) = Option.none →
      getAnsweredBy (.dict [("status", PyVal.str s)]) = .ok Option.none) ∧
    (lookupVal amd "status" = Option.none →
      getAnsweredBy (.dict amd) = .ok Option.none) ∧
    getAnsweredBy PyVal.none = .ok Option.none ∧
    extractAnsweredBy [("amd", .dict [("status", PyVal.str s)])] =
      .ok (lookupStr answered_by_mapping (asciiUpper s)) := by
  refine ⟨rfl, rfl, rfl, rfl, rfl, fun h => ?_, fun h => ?_, rfl, rfl⟩
  · show Except.ok (lookupStr answered_by_mapping (asciiUpper s)) = .ok Option.none
    rw [h]
  · cases amd with
    | nil => rfl
    | cons kv t =>
      have h1 : pyGetD (PyVal.dict (kv :: t)) "status" (.str "") =
          Except.ok (PyVal.str "") := by
        show Except.ok (dgetD (kv :: t) "status" (.str "")) = Except.ok (PyVal.str "")
        unfold dgetD
        rw [h]
        rfl
      unfold getAnsweredBy
      rw [if_neg (by simp [pyTruthy]), h1]
      rfl

/-- Concrete instances of `answered_by_table`: an unrecognized or absent
status yields no answered-by value. -/
theorem answered_by_table_witness :
    getAnsweredBy (.dict [("status", PyVal.str "maybe")]) = .ok Option.none ∧
    getAnsweredBy (.dict [("confidence", PyVal.int 3)]) = .ok Option.none :=
  ⟨(answered_by_table "maybe" []).2.2.2.2.2.1 (by rfl),
   (answered_by_table "x" [("confidence", PyVal.int 3)]).2.2.2.2.2.2.1 (by rfl)⟩

/-! ## Normalizer pipeline lemmas -/

theorem bindOk {α β : Type} (a : α) (f : α → Except PyErr β) :
    (Except.ok a >>= f : Except PyErr β) = f a := rfl

theorem bindErr {α β : Type} (e : PyErr) (f : α → Except PyErr β) :
    (Except.error e >>= f : Except PyErr β) = .error e := rfl

theorem pureOk {α : Type} (a : α) : (pure a : Except PyErr α) = .ok a := rfl

theorem keys_ne {kvs : List (String × PyVal)} {keys : List String} {k : String}
    (hmap : kvs.map Prod.fst = keys) (hk : ∀ s ∈ keys, s ≠ k) :
    ∀ kv ∈ kvs, kv.1 ≠ k :=
  fun kv hkv => hk kv.1 (hmap ▸ List.mem_map_of_mem Prod.fst hkv)

theorem dupdate_filter_lookup {fmt kvs : List (String × PyVal)}
    {p : String × PyVal → Bool} {keys : List String} {k : String}
    (hmap : kvs.map Prod.fst = keys) (hk : ∀ s ∈ keys, s ≠ k) :
    lookupVal (dupdate fmt (kvs.filter p)) k = lookupVal fmt k :=
  lookupVal_dupdate_ne _ _ _ (fun kv hkv =>
    keys_ne hmap hk kv (List.mem_filter.mp hkv).1)

theorem add_geographic_params_lookup {fmt data fmt' : List (String × PyVal)}
    {k : String} (h : add_geographic_params fmt data = .ok fmt')
    (hk : ∀ s ∈ geoParamKeys, s ≠ k) :
    lookupVal fmt' k = lookupVal fmt k := by
  unfold add_geographic_params at h
  rcases hgeo : pyOr (dgetD data "geography" (.dict []))
      (dgetD data "geo" (.dict [])) with _ | s | n | b | entries <;>
    rw [hgeo] at h <;>
    simp only [pyGetD, bindOk, bindErr, pureOk, Except.ok.injEq] at h
  all_goals try exact Except.noConfusion h
  rw [← h]
  exact dupdate_filter_lookup rfl hk

theorem bind_ok_iff {α β : Type} {e : Except PyErr α} {f : α → Except PyErr β} {b : β}
    (h : (e >>= f) = .ok b) : ∃ a, e = .ok a ∧ f a = .ok b := by
  cases e with
  | error err => exact absurd h (by simp [bindErr])
  | ok a => exact ⟨a, rfl, h⟩

theorem add_amd_params_lookup {fmt data fmt' : List (String × PyVal)} {k : String}
    (h : add_amd_params fmt data = .ok fmt')
    (hk : ∀ s ∈ amdParamKeys, s ≠ k) :
    lookupVal fmt' k = lookupVal fmt k := by
  have hA : "AnsweredBy" ≠ k := hk _ (by simp [amdParamKeys])
  have hM : "MachineDetectionConfidence" ≠ k := hk _ (by simp [amdParamKeys])
  unfold add_amd_params at h
  dsimp only at h
  split at h
  · simp only [pureOk, Except.ok.injEq] at h
    rw [← h, lookupVal_dset_ne _ _ _ _ hA]
  · split at h
    · obtain ⟨sv, hsv, h⟩ := bind_ok_iff h
      split at h
      · obtain ⟨score, hsc, h⟩ := bind_ok_iff h
        obtain ⟨conf, hcf, h⟩ := bind_ok_iff h
        split at h
        · simp only [pureOk, Except.ok.injEq] at h
          rw [← h, lookupVal_dset_ne _ _ _ _ hM, lookupVal_dset_ne _ _ _ _ hA]
        · simp only [pureOk, Except.ok.injEq] at h
          rw [← h, lookupVal_dset_ne _ _ _ _ hA]
      · simp only [pureOk, Except.ok.injEq] at h
        rw [← h]
    · simp only [pureOk, Except.ok.injEq] at h
      rw [← h]

/-- When one of the direct answered-by spellings is truthy, `add_amd_params`
stores it under `AnsweredBy` verbatim. -/
theorem add_amd_params_sets {fmt data : List (String × PyVal)} {v : PyVal}
    (hv : pyOr (dget data "AnsweredBy")
      (pyOr (dget data "answeredBy") (dget data "answered_by")) = v)
    (ht : pyTruthy v = true) :
    add_amd_params fmt data = .ok (dset fmt "AnsweredBy" v) := by
  unfold add_amd_params
  rw [hv, if_pos ht]
  rfl

theorem add_event_specific_params_lookup {fmt data fmt' : List (String × PyVal)}
    {k : String} (h : add_event_specific_params fmt data = .ok fmt')
    (hk : ∀ s ∈ eventParamKeys, s ≠ k) :
    lookupVal fmt' k = lookupVal fmt k := by
  have hD : "Digits" ≠ k := hk _ (by simp [eventParamKeys])
  have hS : "SpeechResult" ≠ k := hk _ (by simp [eventParamKeys])
  have hC : "Confidence" ≠ k := hk _ (by simp [eventParamKeys])
  unfold add_event_specific_params at h
  obtain ⟨et, hev, h⟩ := bind_ok_iff h
  dsimp only at h
  simp only [pure_bind] at h
  split at h
  · split at h <;> simp only [pureOk, Except.ok.injEq] at h <;> rw [← h] <;>
      simp only [lookupVal_dset_ne _ _ _ _ hD]
  · split at h
    · split at h
      · obtain ⟨dl, hdl, h⟩ := bind_ok_iff h
        try dsimp only at h
        repeat' split at h
        all_goals simp only [pureOk, Except.ok.injEq] at h
        all_goals rw [← h]
        all_goals simp only [lookupVal_dset_ne _ _ _ _ hD,
          lookupVal_dset_ne _ _ _ _ hS, lookupVal_dset_ne _ _ _ _ hC]
      · repeat' split at h
        all_goals simp only [pureOk, Except.ok.injEq] at h
        all_goals rw [← h]
        all_goals simp only [lookupVal_dset_ne _ _ _ _ hD,
          lookupVal_dset_ne _ _ _ _ hS, lookupVal_dset_ne _ _ _ _ hC]
    · split at h
      · split at h <;> simp only [pureOk, Except.ok.injEq] at h <;> rw [← h] <;>
          simp only [lookupVal_dset_ne _ _ _ _ hD]
      · simp only [pureOk, Except.ok.injEq] at h
        rw [← h]

theorem add_status_callback_params_lookup {fmtTs : PyVal → String}
    {fmt data fmt' : List (String × PyVal)} {k : String}
    (h : add_status_callback_params fmtTs fmt data = .ok fmt')
    (hk : ∀ s ∈ statusCallbackParamKeys, s ≠ k) :
    lookupVal fmt' k = lookupVal fmt k := by
  have hCb : "CallbackSource" ≠ k := hk _ (by simp [statusCallbackParamKeys])
  have hSq : "SequenceNumber" ≠ k := hk _ (by simp [statusCallbackParamKeys])
  have hT : "Timestamp" ≠ k := hk _ (by simp [statusCallbackParamKeys])
  unfold add_status_callback_params at h
  obtain ⟨et, hev, h⟩ := bind_ok_iff h
  dsimp only at h
  split at h
  · split at h <;> simp only [pureOk, Except.ok.injEq] at h
    · rw [← h, lookupVal_dset_ne _ _ _ _ hT, lookupVal_dset_ne _ _ _ _ hSq,
        lookupVal_dset_ne _ _ _ _ hCb]
    · rw [← h, lookupVal_dset_ne _ _ _ _ hSq, lookupVal_dset_ne _ _ _ _ hCb]
  · simp only [pureOk, Except.ok.injEq] at h
    rw [← h]

theorem add_recording_params_lookup {fmtTs : PyVal → String}
    {fmt data fmt' : List (String × PyVal)} {k : String}
    (h : add_recording_params fmtTs fmt data = .ok fmt')
    (hk : ∀ s ∈ recordingParamKeys, s ≠ k) :
    lookupVal fmt' k = lookupVal fmt k := by
  unfold add_recording_params at h
  obtain ⟨et, hev, h⟩ := bind_ok_iff h
  dsimp only at h
  split at h
  · simp only [pureOk, Except.ok.injEq] at h
    rw [← h]
    split
    · exact dupdate_filter_lookup rfl hk
    · exact dupdate_filter_lookup rfl
        (fun s hs => hk s (by revert hs; simp [recordingParamKeys]; tauto))
  · simp only [pureOk, Except.ok.injEq] at h
    rw [← h]

theorem add_dial_conference_params_lookup {fmt data fmt' : List (String × PyVal)}
    {k : String} (h : add_dial_conference_params fmt data = .ok fmt')
    (hk : ∀ s ∈ dialParamKeys, s ≠ k) :
    lookupVal fmt' k = lookupVal fmt k := by
  unfold add_dial_conference_params at h
  obtain ⟨et, hev, h⟩ := bind_ok_iff h
  dsimp only at h
  split at h
  · obtain ⟨ds, hds, h⟩ := bind_ok_iff h
    try dsimp only at h
    simp only [pureOk, Except.ok.injEq] at h
    rw [← h]
    exact dupdate_filter_lookup rfl hk
  · simp only [pureOk, Except.ok.injEq] at h
    rw [← h]

theorem add_sip_params_lookup {fmt data : List (String × PyVal)} {k : String}
    (hk : ∀ s ∈ sipParamKeys, s ≠ k) :
    lookupVal (add_sip_params fmt data) k = lookupVal fmt k := by
  unfold add_sip_params
  split
  · exact dupdate_filter_lookup rfl hk
  · rfl

theorem add_additional_params_lookup {fmt data : List (String × PyVal)} {k : String}
    (hk : ∀ s ∈ additionalParamKeys, s ≠ k) :
    lookupVal (add_additional_params fmt data) k = lookupVal fmt k := by
  have h1 : "ErrorCode" ≠ k := hk _ (by simp [additionalParamKeys])
  have h2 : "ErrorMessage" ≠ k := hk _ (by simp [additionalParamKeys])
  have h3 : "QueueSid" ≠ k := hk _ (by simp [additionalParamKeys])
  have h4 : "QueueName" ≠ k := hk _ (by simp [additionalParamKeys])
  have h5 : "ApplicationSid" ≠ k := hk _ (by simp [additionalParamKeys])
  unfold add_additional_params
  repeat' split
  all_goals simp only [lookupVal_dset_ne _ _ _ _ h1, lookupVal_dset_ne _ _ _ _ h2,
    lookupVal_dset_ne _ _ _ _ h3, lookupVal_dset_ne _ _ _ _ h4,
    lookupVal_dset_ne _ _ _ _ h5]

theorem optional_params_keys (a b c d : PyVal) :
    ([("ForwardedFrom", a), ("CallerName", b), ("ParentCallSid", c),
      ("CallToken", d)] : List (String × PyVal)).map Prod.fst = optionalParamKeys := rfl

theorem event_map_values : ∀ kv ∈ event_status_map, kv.2 ∈ canonicalStatuses := by
  decide

theorem status_map_values : ∀ kv ∈ status_map, kv.2 ∈ canonicalStatuses := by
  decide

theorem canonical_truthy : ∀ s ∈ canonicalStatuses, pyTruthy (.str s) = true := by
  decide

theorem map_call_status_mem {d : List (String × PyVal)} {s : String}
    (h : map_call_status d = .ok s) : s ∈ canonicalStatuses := by
  unfold map_call_status at h
  obtain ⟨st, hst, h⟩ := bind_ok_iff h
  try dsimp only at h
  obtain ⟨ev, hev, h⟩ := bind_ok_iff h
  try dsimp only at h
  split at h
  · next v hveq =>
      simp only [pureOk, Except.ok.injEq] at h
      subst h
      split at hveq
      · exact event_map_values _ (lookupStr_mem hveq)
      · exact absurd hveq (by simp)
  · simp only [pureOk, Except.ok.injEq] at h
    subst h
    rcases hlk : lookupStr status_map st with _ | v
    · decide
    · exact status_map_values _ (lookupStr_mem hlk)

theorem core_filter_lookup_callStatus (callSid : String) (accountSid : PyVal)
    (fromN toN : String) (callStatus : String) (direction : PyVal) (cd dm : String)
    (htr : pyTruthy (.str callStatus) = true) :
    lookupVal (([("CallSid", PyVal.str callSid), ("AccountSid", accountSid),
      ("ApiVersion", PyVal.str "2010-04-01"), ("From", PyVal.str fromN),
      ("To", PyVal.str toN), ("CallStatus", PyVal.str callStatus),
      ("Direction", direction), ("CallDuration", PyVal.str cd),
      ("Duration", PyVal.str dm)] : List (String × PyVal)).filter
        (fun kv => pyTruthy kv.2)) "CallStatus" = some (PyVal.str callStatus) := by
  rw [lookupVal_filter]
  · simp [lookupVal]
  · intro v hv
    simp at hv
    subst hv
    exact htr

/-! ## C2: the normalizer is not total -/

/-- **C2** (code evaluated at the failing inputs): `convert_to_twilio_format`
raises on payloads with non-string values — an integer `callId` hits
`int.startswith` and an integer `status` hits `int.lower`, contradicting the
never-raises guarantee. -/
theorem convert_not_total (genSid : String) (fmtTs : PyVal → String) :
    convert_to_twilio_format genSid fmtTs (.dict [("callId", PyVal.int 123)]) =
      .error (.attributeError "startswith") ∧
    convert_to_twilio_format genSid fmtTs (.dict [("status", PyVal.int 5)]) =
      .error (.attributeError "lower") :=
  ⟨rfl, rfl⟩

/-! ## C3: the CallStatus closed-set invariant -/

/-- **C3 counterexample**: on the already-canonical short-circuit path an
unrecognized input `CallStatus` is propagated verbatim, outside the closed
canonical set — refuting the claim for that path. -/
theorem convert_shortcircuit_passes_bogus_status :
    convert_to_twilio_format "" (fun _ => "")
        (.dict [("CallSid", PyVal.str "CA1"), ("CallStatus", PyVal.str "bogus")]) =
      .ok [("CallSid", PyVal.str "CA1"), ("CallStatus", PyVal.str "bogus"),
        ("ApiVersion", PyVal.str "2010-04-01"),
        ("Direction", PyVal.str "outbound-api")] ∧
    "bogus" ∉ canonicalStatuses :=
  ⟨rfl, by decide⟩

/-- **C3 (amended)**: on the non-short-circuit path, whenever
`convert_to_twilio_format` succeeds and its result binds `CallStatus`, the
bound value is a string belonging to the fixed closed set
`{queued, ringing, in-progress, completed, failed, busy, no-answer,
canceled}`; an unrecognized status is never propagated verbatim there. -/
theorem convert_callStatus_canonical (genSid : String) (fmtTs : PyVal → String)
    (dataV : PyVal) (out : List (String × PyVal)) (v : PyVal)
    (hsc : shortCircuits dataV = false)
    (hcv : convert_to_twilio_format genSid fmtTs dataV = .ok out)
    (hlk : lookupVal out "CallStatus" = some v) :
    ∃ s, v = PyVal.str s ∧ s ∈ canonicalStatuses := by
  rcases dataV with _ | s' | n | b | data
  case str =>
    unfold convert_to_twilio_format at hcv
    simp only [pureOk, Except.ok.injEq] at hcv
    subst hcv
    simp [lookupVal] at hlk
  case none =>
    unfold convert_to_twilio_format at hcv
    simp only [pureOk, Except.ok.injEq] at hcv
    subst hcv
    simp [lookupVal] at hlk
  case int =>
    unfold convert_to_twilio_format at hcv
    simp only [pureOk, Except.ok.injEq] at hcv
    subst hcv
    simp [lookupVal] at hlk
  case bool =>
    unfold convert_to_twilio_format at hcv
    simp only [pureOk, Except.ok.injEq] at hcv
    subst hcv
    simp [lookupVal] at hlk
  case dict =>
    have hsc' : ¬(((lookupVal data "CallSid").isSome &&
        (lookupVal data "event").isNone) = true) := by
      simp only [shortCircuits] at hsc
      simp [hsc]
    unfold convert_to_twilio_format at hcv
    dsimp only at hcv
    rw [if_neg hsc'] at hcv
    obtain ⟨callSid, hcs, hcv⟩ := bind_ok_iff hcv
    try dsimp only at hcv
    obtain ⟨callStatus, hms, hcv⟩ := bind_ok_iff hcv
    try dsimp only at hcv
    obtain ⟨f1, hg, hcv⟩ := bind_ok_iff hcv
    obtain ⟨f2, ha, hcv⟩ := bind_ok_iff hcv
    obtain ⟨f3, he, hcv⟩ := bind_ok_iff hcv
    obtain ⟨f4, hscb, hcv⟩ := bind_ok_iff hcv
    obtain ⟨f5, hr, hcv⟩ := bind_ok_iff hcv
    obtain ⟨f6, hd, hcv⟩ := bind_ok_iff hcv
    simp only [pureOk, Except.ok.injEq] at hcv
    subst hcv
    have hmem := map_call_status_mem hms
    have htr : pyTruthy (.str callStatus) = true := canonical_truthy _ hmem
    rw [add_additional_params_lookup (by decide),
      add_sip_params_lookup (by decide),
      add_dial_conference_params_lookup hd (by decide),
      add_recording_params_lookup hr (by decide),
      add_status_callback_params_lookup hscb (by decide),
      add_event_specific_params_lookup he (by decide),
      add_amd_params_lookup ha (by decide),
      add_geographic_params_lookup hg (by decide),
      dupdate_filter_lookup (optional_params_keys _ _ _ _) (by decide),
      core_filter_lookup_callStatus _ _ _ _ _ _ _ _ htr] at hlk
    simp only [Option.some.injEq] at hlk
    exact ⟨callStatus, hlk.symm, hmem⟩

/-- Concrete instance of `convert_callStatus_canonical`: a `call.ringing`
event maps to `ringing`, a member of the closed set. -/
theorem convert_callStatus_canonical_witness :
    ∃ s, PyVal.str "ringing" = PyVal.str s ∧ s ∈ canonicalStatuses :=
  convert_callStatus_canonical "CAgen" (fun _ => "T")
    (.dict [("event", PyVal.str "call.ringing"), ("to", PyVal.str "5551234567")])
    [("CallSid", PyVal.str "CAgen"),
     ("AccountSid", PyVal.str "ACxxxxxxxxxxxxxxxxxxxxxxxxxxxxxxxx"),
     ("ApiVersion", PyVal.str "2010-04-01"), ("To", PyVal.str "+15551234567"),
     ("CallStatus", PyVal.str "ringing"), ("Direction", PyVal.str "outbound-api"),
     ("CallDuration", PyVal.str "0"), ("Duration", PyVal.str "0"),
     ("FromCountry", PyVal.str "US"), ("ToCountry", PyVal.str "US"),
     ("CallbackSource", PyVal.str "call-progress-events"),
     ("SequenceNumber", PyVal.str "0")]
    (PyVal.str "ringing") rfl rfl rfl

/-! ## C10: verbatim AnsweredBy pass-through -/

/-- **C10**: on the non-short-circuit path, a truthy value under
`AnsweredBy`/`answeredBy`/`answered_by` (first truthy in that order) is bound
verbatim to the output key `AnsweredBy`, bypassing the answered-by mapping
table. -/
theorem convert_answeredBy_verbatim (genSid : String) (fmtTs : PyVal → String)
    (data : List (String × PyVal)) (out : List (String × PyVal)) (v : PyVal)
    (hsc : shortCircuits (.dict data) = false)
    (hv : pyOr (dget data "AnsweredBy")
      (pyOr (dget data "answeredBy") (dget data "answered_by")) = v)
    (ht : pyTruthy v = true)
    (hcv : convert_to_twilio_format genSid fmtTs (.dict data) = .ok out) :
    lookupVal out "AnsweredBy" = some v := by
  have hsc' : ¬(((lookupVal data "CallSid").isSome &&
      (lookupVal data "event").isNone) = true) := by
    simp only [shortCircuits] at hsc
    simp [hsc]
  unfold convert_to_twilio_format at hcv
  dsimp only at hcv
  rw [if_neg hsc'] at hcv
  obtain ⟨callSid, hcs, hcv⟩ := bind_ok_iff hcv
  try dsimp only at hcv
  obtain ⟨callStatus, hms, hcv⟩ := bind_ok_iff hcv
  try dsimp only at hcv
  obtain ⟨f1, hg, hcv⟩ := bind_ok_iff hcv
  obtain ⟨f2, ha, hcv⟩ := bind_ok_iff hcv
  obtain ⟨f3, he, hcv⟩ := bind_ok_iff hcv
  obtain ⟨f4, hscb, hcv⟩ := bind_ok_iff hcv
  obtain ⟨f5, hr, hcv⟩ := bind_ok_iff hcv
  obtain ⟨f6, hd, hcv⟩ := bind_ok_iff hcv
  simp only [pureOk, Except.ok.injEq] at hcv
  subst hcv
  have hset := @add_amd_params_sets f1 data v hv ht
  have hf2 : dset f1 "AnsweredBy" v = f2 := by
    have h' := hset.symm.trans ha
    exact (Except.ok.injEq _ _).mp h'
  rw [add_additional_params_lookup (by decide),
    add_sip_params_lookup (by decide),
    add_dial_conference_params_lookup hd (by decide),
    add_recording_params_lookup hr (by decide),
    add_status_callback_params_lookup hscb (by decide),
    add_event_specific_params_lookup he (by decide),
    ← hf2, lookupVal_dset_self]

/-- Concrete instance of `convert_answeredBy_verbatim`: an `answeredBy` of
`NOTSURE` — outside the canonical vocabulary — appears unchanged in the
output. -/
theorem convert_answeredBy_verbatim_witness :
    lookupVal [("CallSid", PyVal.str "CAgen"),
      ("AccountSid", PyVal.str "ACxxxxxxxxxxxxxxxxxxxxxxxxxxxxxxxx"),
      ("ApiVersion", PyVal.str "2010-04-01"),
      ("CallStatus", PyVal.str "in-progress"),
      ("Direction", PyVal.str "outbound-api"), ("CallDuration", PyVal.str "0"),
      ("Duration", PyVal.str "0"), ("FromCountry", PyVal.str "US"),
      ("ToCountry", PyVal.str "US"), ("AnsweredBy", PyVal.str "NOTSURE")]
      "AnsweredBy" = some (PyVal.str "NOTSURE") :=
  convert_answeredBy_verbatim "CAgen" (fun _ => "T")
    [("answeredBy", PyVal.str "NOTSURE"), ("event", PyVal.str "x")]
    [("CallSid", PyVal.str "CAgen"),
     ("AccountSid", PyVal.str "ACxxxxxxxxxxxxxxxxxxxxxxxxxxxxxxxx"),
     ("ApiVersion", PyVal.str "2010-04-01"),
     ("CallStatus", PyVal.str "in-progress"),
     ("Direction", PyVal.str "outbound-api"), ("CallDuration", PyVal.str "0"),
     ("Duration", PyVal.str "0"), ("FromCountry", PyVal.str "US"),
     ("ToCountry", PyVal.str "US"), ("AnsweredBy", PyVal.str "NOTSURE")]
    (PyVal.str "NOTSURE") rfl rfl rfl rfl

end TwilioSpec
